import Mathlib

/-!
Verification of the VidioX video-streaming backend.

Shallow embedding of the relevant source:
- `src/backend/api/server.js` — video schema, upload dispatch, on-demand
  status route, background poller `checkProcessingJobs`, metadata update.
- `src/unnamed/part_000` (storage utilities) — `deleteFile`,
  `getContentType` (with Node `path.extname` semantics).

Machine integers are modelled as `Nat` (timestamps are clock readings,
sizes/bitrates are byte/bit counts); JS strings as `String`; absent /
undefined fields as `Option`; JS truthiness of an optional string is
`strTruthy`.
-/

namespace VidioX

/-- The `status` enum of the video schema (server.js:55-59). -/
inductive Status
  | uploading
  | processing
  | ready
  | error
deriving DecidableEq, Repr

/-- One entry of the `formats` array (server.js:63-68). -/
structure FormatEntry where
  quality : String
  url : String
  size : Nat
  bitrate : Nat
deriving DecidableEq, Repr

/-- The `videoInfo` sub-document (server.js:69-74). -/
structure VideoInfo where
  width : Nat
  height : Nat
  codec : String
  fps : Nat
deriving DecidableEq, Repr

/-- A persisted video record (server.js:50-77).  `createdAt` and
`updatedAt` default to the creation clock reading (`Date.now` defaults,
server.js:75-76); no mongoose `timestamps` option is set, so `updatedAt`
changes only where the code assigns it explicitly. -/
structure VideoRecord where
  id : String
  title : String
  description : String
  originalFilename : String
  status : Status
  jobId : Option String
  thumbnail : Option String
  duration : Option Nat
  formats : List FormatEntry
  videoInfo : Option VideoInfo
  createdAt : Nat
  updatedAt : Nat
deriving DecidableEq, Repr

/-- JS truthiness of an optional string field: `undefined` and the empty
string are falsy, any other string is truthy. -/
def strTruthy : Option String → Bool
  | none => false
  | some s => !(s == "")

/-- One element of the engine's `data.encoded_files` array
(server.js:256-261 reads fields `quality`, `url`, `size`, `bitrate`). -/
structure EncodedFile where
  quality : String
  url : String
  size : Nat
  bitrate : Nat
deriving DecidableEq, Repr

/-- The `data` object of a completed engine job payload
(server.js:250 destructures `encoded_files`, `thumbnail_url`,
`duration`, `video_info`). -/
structure JobData where
  encoded_files : List EncodedFile
  thumbnail_url : String
  duration : Nat
  video_info : VideoInfo
deriving DecidableEq, Repr

/-- An engine job-status payload: `status` is a raw string ("completed",
"error", or anything else meaning still running); `data` is present only
when the engine supplies it (server.js:246-269). -/
structure JobPayload where
  status : String
  data : Option JobData
deriving DecidableEq, Repr

/-- Application of an engine payload to a record, as written identically
in the status route (server.js:249-269) and the poller
(server.js:345-368): on `completed` with data, overwrite status,
thumbnail, duration, videoInfo, formats and refresh `updatedAt`; on
`error`, set status and refresh `updatedAt`; otherwise leave the record
untouched. -/
def applyJobOutcome (video : VideoRecord) (jobData : JobPayload) (now : Nat) :
    VideoRecord :=
  if jobData.status = "completed" then
    match jobData.data with
    | some d =>
        { video with
          status := Status.ready
          thumbnail := some d.thumbnail_url
          duration := some d.duration
          videoInfo := some d.video_info
          formats := d.encoded_files.map
            (fun f => { quality := f.quality, url := f.url,
                        size := f.size, bitrate := f.bitrate })
          updatedAt := now }
    | none => video
  else if jobData.status = "error" then
    { video with status := Status.error, updatedAt := now }
  else
    video

/-- The JSON body returned by `GET /api/videos/:id/status`
(server.js:276-281). -/
structure StatusResponse where
  id : String
  status : Status
  jobId : Option String
  updatedAt : Nat
deriving DecidableEq, Repr

/-- Outcome of one on-demand status query: the persisted record
afterwards, the response sent to the caller, and how many engine status
calls were issued. -/
structure QueryResult where
  video : VideoRecord
  response : StatusResponse
  engineCalls : Nat
deriving DecidableEq, Repr

/-- `GET /api/videos/:id/status` (server.js:232-287) for a record that
exists.  `e` is the outcome of the single engine call for
`video.jobId`, were it issued: `Except.ok` a payload, or `Except.error`
for any transport or engine failure (caught at server.js:271-273 with
only a log).  The engine is consulted only when the persisted status is
`processing` and `jobId` is truthy (server.js:240). -/
def getVideoStatus (video : VideoRecord) (e : Except Unit JobPayload)
    (now : Nat) : QueryResult :=
  if video.status = Status.processing ∧ strTruthy video.jobId = true then
    match e with
    | Except.ok jobData =>
        let v := applyJobOutcome video jobData now
        { video := v
          response := { id := v.id, status := v.status, jobId := v.jobId,
                        updatedAt := v.updatedAt }
          engineCalls := 1 }
    | Except.error _ =>
        { video := video
          response := { id := video.id, status := video.status,
                        jobId := video.jobId, updatedAt := video.updatedAt }
          engineCalls := 1 }
  else
    { video := video
      response := { id := video.id, status := video.status,
                    jobId := video.jobId, updatedAt := video.updatedAt }
      engineCalls := 0 }

/-- Loop body of `checkProcessingJobs` for one loaded record
(server.js:336-373): if `jobId` is truthy, query the engine
(`eng` maps a job id to that query's outcome) and apply the payload; a
failed query is caught and logged (server.js:370-372), leaving the
record unchanged. -/
def pollOne (eng : String → Except Unit JobPayload) (now : Nat)
    (v : VideoRecord) : VideoRecord :=
  if strTruthy v.jobId = true then
    match eng (v.jobId.getD "") with
    | Except.ok jobData => applyJobOutcome v jobData now
    | Except.error _ => v
  else v

/-- `checkProcessingJobs` (server.js:332-378): the sequential `for` loop
over the records loaded by `Video.find({status: 'processing'})`, each
iteration guarded by its own try/catch. -/
def checkProcessingJobs (eng : String → Except Unit JobPayload) (now : Nat) :
    List VideoRecord → List VideoRecord
  | [] => []
  | v :: rest => pollOne eng now v :: checkProcessingJobs eng now rest

/-- Effect of one poller tick on one arbitrary persisted record: the
`find({status: 'processing'})` filter (server.js:334) means only
records in status `processing` are loaded and handed to the loop body;
all others are untouched by the tick. -/
def sweepRecord (eng : String → Except Unit JobPayload) (now : Nat)
    (v : VideoRecord) : VideoRecord :=
  if v.status = Status.processing then pollOne eng now v else v

/-- Outcome of the engine submission call made by the upload route
(server.js:175-185): success carries the `job_id` of the response, any
network error or engine-side rejection (including a timeout) lands in
the catch block at server.js:204. -/
inductive SubmitResult
  | ok (job_id : String)
  | err
deriving DecidableEq, Repr

/-- `POST /api/videos/upload` after multer stored the file and title
validation passed (server.js:156-217).  A fresh record is created with
status `uploading` and both timestamps defaulted to the creation clock
`cAt` (server.js:159-167, schema defaults at server.js:75-76).  On
submission success the code assigns `jobId` and `status := processing`
and saves (server.js:188-190); on failure it assigns
`status := error` and saves (server.js:208-209).  Neither branch
assigns a timestamp, so the parameter `now` — the clock reading at
which the dispatch outcome is saved — is not consumed by the source.
In both branches the uploaded temp file is removed
(server.js:193, 212-214); the returned `Bool` is whether the file is
still on disk afterwards. -/
def uploadVideo (title : String) (descr : Option String)
    (originalname : String) (videoId : String) (cAt now : Nat)
    (submit : SubmitResult) : VideoRecord × Bool :=
  let video : VideoRecord :=
    { id := videoId
      title := title.trim
      description := (descr.map String.trim).getD ""
      originalFilename := originalname
      status := Status.uploading
      jobId := none
      thumbnail := none
      duration := none
      formats := []
      videoInfo := none
      createdAt := cAt
      updatedAt := cAt }
  match submit with
  | SubmitResult.ok j =>
      ({ video with jobId := some j, status := Status.processing }, false)
  | SubmitResult.err =>
      ({ video with status := Status.error }, false)

/-- `PUT /api/videos/:id` (server.js:290-310): overwrite `title` when
the request supplies a truthy title, overwrite `description` when the
field is present at all, and refresh `updatedAt`. -/
def updateVideo (video : VideoRecord) (title descr : Option String)
    (now : Nat) : VideoRecord :=
  let v1 :=
    match title with
    | some t => if t = "" then video else { video with title := t.trim }
    | none => video
  let v2 :=
    match descr with
    | some d => { v1 with description := d.trim }
    | none => v1
  { v2 with updatedAt := now }

/-- The status-machine edges of spec §4.1, self-loops included:
`uploading → processing | error`, `processing → ready | error`. -/
def allowedEdge (s t : Status) : Bool :=
  s == t
    || (s == Status.uploading && (t == Status.processing || t == Status.error))
    || (s == Status.processing && (t == Status.ready || t == Status.error))

/-- The reconciliation write as both racing paths actually perform it
(status route server.js:234-269, poller server.js:334-367): the writer
first reads its own snapshot `snap` of the record, gates on that
snapshot having status `processing` and a truthy `jobId`, and — when
the engine payload is terminal (`completed` with data, or `error`) —
persists the mutated snapshot with a plain `video.save()`, replacing
whatever state `db` is persisted at write time.  Nothing re-checks the
persisted status at the moment of the save. -/
def staleReconcileWrite (db snap : VideoRecord) (e : Except Unit JobPayload)
    (now : Nat) : VideoRecord :=
  if snap.status = Status.processing ∧ strTruthy snap.jobId = true then
    match e with
    | Except.ok p =>
        if (p.status = "completed" ∧ p.data.isSome = true) ∨ p.status = "error"
        then applyJobOutcome snap p now
        else db
    | Except.error _ => db
  else db

/-- Storage configuration environment (part_000): `AWS_ACCESS_KEY_ID`,
`S3_BUCKET`, `CLOUDINARY_CLOUD_NAME`; `none` models an unset variable
and truthiness follows JS. -/
structure StorageConfig where
  awsAccessKeyId : Option String
  s3Bucket : Option String
  cloudinaryCloudName : Option String
deriving DecidableEq, Repr

/-- The S3 provider is selected when both `AWS_ACCESS_KEY_ID` and
`S3_BUCKET` are truthy (part_000:229). -/
def s3Configured (cfg : StorageConfig) : Bool :=
  strTruthy cfg.awsAccessKeyId && strTruthy cfg.s3Bucket

/-- The Cloudinary provider is selected when `CLOUDINARY_CLOUD_NAME` is
truthy (part_000:233). -/
def cloudinaryConfigured (cfg : StorageConfig) : Bool :=
  strTruthy cfg.cloudinaryCloudName

/-- Result object of one provider's delete call (`deleteFromS3`
part_000:108-127, `deleteFromCloudinary` part_000:135-155): a success
flag plus diagnostic detail. -/
structure DeleteOutcome where
  success : Bool
  detail : String
deriving DecidableEq, Repr

/-- Return value of `deleteFile` (part_000:237-240). -/
structure DeleteFileResult where
  success : Bool
  results : List DeleteOutcome
deriving DecidableEq, Repr

/-- `deleteFile` (part_000:225-241): push the S3 delete outcome when S3
is configured, then the Cloudinary outcome when Cloudinary is
configured; aggregate success is `results.some(r => r.success)`.
`s3r` / `clr` are the outcomes the respective provider call would
return were it made. -/
def deleteFile (cfg : StorageConfig) (s3r clr : DeleteOutcome) :
    DeleteFileResult :=
  let results : List DeleteOutcome := []
  let results := if s3Configured cfg then results ++ [s3r] else results
  let results := if cloudinaryConfigured cfg then results ++ [clr] else results
  { success := results.any (fun r => r.success), results := results }

/-- Scanner state of Node's posix `path.extname` loop: indices of the
last dot and of the end of the basename (`-1` when not yet seen), start
of the basename, whether only trailing slashes have been seen so far,
and the dot-context flag (`0` start, `1` dots only after the last
non-dot, `-1` a non-dot char precedes the extension dot). -/
structure ExtState where
  startDot : Int
  startPart : Nat
  endIdx : Int
  matchedSlash : Bool
  preDotState : Int
deriving DecidableEq, Repr

/-- Right-to-left scan of Node's `path.extname`: characters are
supplied in reverse order, `i` is the index of the current character in
the original string. -/
def extGo : List Char → Nat → ExtState → ExtState
  | [], _, st => st
  | c :: rest, i, st =>
    if c = '/' then
      if st.matchedSlash then extGo rest (i - 1) st
      else { st with startPart := i + 1 }
    else
      let st1 :=
        if st.endIdx = -1 then
          { st with matchedSlash := false, endIdx := Int.ofNat (i + 1) }
        else st
      let st2 :=
        if c = '.' then
          if st1.startDot = -1 then { st1 with startDot := Int.ofNat i }
          else if st1.preDotState ≠ 1 then { st1 with preDotState := 1 }
          else st1
        else if st1.startDot ≠ -1 then { st1 with preDotState := -1 }
        else st1
      extGo rest (i - 1) st2

/-- Node's posix `path.extname` (used at part_000:180): the substring
from the last dot of the basename to its end, except that a dot in the
leading position of the basename (dot-file) or a basename of bare dots
yields the empty string. -/
def extname (p : String) : String :=
  let cs := p.data
  let st := extGo cs.reverse (cs.length - 1)
    { startDot := -1, startPart := 0, endIdx := -1,
      matchedSlash := true, preDotState := 0 }
  if st.startDot = -1 ∨ st.endIdx = -1 ∨ st.preDotState = 0 ∨
      (st.preDotState = 1 ∧ st.startDot = st.endIdx - 1 ∧
        st.startDot = Int.ofNat (st.startPart + 1)) then
    ""
  else
    String.mk ((cs.drop st.startDot.toNat).take
      (st.endIdx.toNat - st.startDot.toNat))

/-- JS `String.prototype.toLowerCase` on the ASCII extensions in play. -/
def strToLower (s : String) : String :=
  String.mk (s.data.map Char.toLower)

/-- The static extension→MIME table of `getContentType`
(part_000:181-193). -/
def contentTypes : List (String × String) :=
  [ (".mp4", "video/mp4")
  , (".avi", "video/x-msvideo")
  , (".mov", "video/quicktime")
  , (".wmv", "video/x-ms-wmv")
  , (".flv", "video/x-flv")
  , (".webm", "video/webm")
  , (".mkv", "video/x-matroska")
  , (".jpg", "image/jpeg")
  , (".jpeg", "image/jpeg")
  , (".png", "image/png")
  , (".gif", "image/gif") ]

/-- `getContentType` (part_000:179-196): lower-case the extension of
the path and look it up in the table, falling back to
`application/octet-stream`. -/
def getContentType (filePath : String) : String :=
  let ext := strToLower (extname filePath)
  match contentTypes.find? (fun kv => kv.1 = ext) with
  | some kv => kv.2
  | none => "application/octet-stream"


/-! ## Concrete fixtures -/

/-- A concrete `videoInfo` payload value. -/
def sampleInfo : VideoInfo :=
  { width := 1280, height := 720, codec := "h264", fps := 30 }

/-- A concrete completed-job `data` object with two encoded files. -/
def sampleData : JobData :=
  { encoded_files :=
      [ { quality := "480p", url := "u480", size := 100, bitrate := 1200 }
      , { quality := "720p", url := "u720", size := 200, bitrate := 2500 } ]
    thumbnail_url := "thumb.jpg"
    duration := 60
    video_info := sampleInfo }

/-- A concrete completed engine payload. -/
def samplePayload : JobPayload := { status := "completed", data := some sampleData }

/-- A concrete record in status `processing` with job id `job-42`. -/
def sampleRecord : VideoRecord :=
  { id := "vid-1"
    title := "My Clip"
    description := ""
    originalFilename := "clip.mp4"
    status := Status.processing
    jobId := some "job-42"
    thumbnail := none
    duration := none
    formats := []
    videoInfo := none
    createdAt := 1
    updatedAt := 1 }

/-- The same record already in the terminal status `ready`. -/
def readyRecord : VideoRecord := { sampleRecord with status := Status.ready }

/-- A record in status `processing` whose `jobId` was never assigned. -/
def noJobRecord : VideoRecord := { sampleRecord with jobId := none }

/-! ## Helper lemmas -/

theorem allowedEdge_refl (s : Status) : allowedEdge s s = true := by
  cases s <;> rfl

theorem applyJobOutcome_status (v : VideoRecord) (p : JobPayload) (t : Nat) :
    (applyJobOutcome v p t).status = v.status
    ∨ (applyJobOutcome v p t).status = Status.ready
    ∨ (applyJobOutcome v p t).status = Status.error := by
  unfold applyJobOutcome
  by_cases h1 : p.status = "completed"
  · rw [if_pos h1]
    cases hd : p.data with
    | none => exact Or.inl rfl
    | some d => exact Or.inr (Or.inl rfl)
  · rw [if_neg h1]
    by_cases h2 : p.status = "error"
    · rw [if_pos h2]
      exact Or.inr (Or.inr rfl)
    · rw [if_neg h2]
      exact Or.inl rfl

theorem pollOne_status (eng : String → Except Unit JobPayload) (now : Nat)
    (v : VideoRecord) :
    (pollOne eng now v).status = v.status
    ∨ (pollOne eng now v).status = Status.ready
    ∨ (pollOne eng now v).status = Status.error := by
  unfold pollOne
  by_cases hj : strTruthy v.jobId = true
  · rw [if_pos hj]
    cases eng (v.jobId.getD "") with
    | ok p => exact applyJobOutcome_status v p now
    | error u => exact Or.inl rfl
  · rw [if_neg hj]
    exact Or.inl rfl

/-! ## Claims -/

/-- C1: for every record in status `processing` and every engine payload
with status `completed`, applying the reconcile step — as performed
identically by the on-demand status query (`getVideoStatus`) and the
background poller tick (`sweepRecord`) — a second time with the
identical payload yields a final record state bit-identical to applying
it once, across all fields including formats, thumbnail, duration,
videoInfo, status and updatedAt; all four orderings of the two paths
are covered. -/
theorem reconcile_idempotent (v : VideoRecord) (p : JobPayload) (t1 t2 : Nat)
    (hs : v.status = Status.processing) (hp : p.status = "completed") :
    (getVideoStatus ((getVideoStatus v (Except.ok p) t1).video)
        (Except.ok p) t2).video
      = (getVideoStatus v (Except.ok p) t1).video
  ∧ sweepRecord (fun _ => Except.ok p) t2
        (sweepRecord (fun _ => Except.ok p) t1 v)
      = sweepRecord (fun _ => Except.ok p) t1 v
  ∧ (getVideoStatus (sweepRecord (fun _ => Except.ok p) t1 v)
        (Except.ok p) t2).video
      = sweepRecord (fun _ => Except.ok p) t1 v
  ∧ sweepRecord (fun _ => Except.ok p) t2
        ((getVideoStatus v (Except.ok p) t1).video)
      = (getVideoStatus v (Except.ok p) t1).video := by
  by_cases hj : strTruthy v.jobId = true
  · cases hd : p.data with
    | some d =>
        refine ⟨?_, ?_, ?_, ?_⟩ <;>
          simp [getVideoStatus, sweepRecord, pollOne, applyJobOutcome,
            hs, hp, hj, hd]
    | none =>
        refine ⟨?_, ?_, ?_, ?_⟩ <;>
          simp [getVideoStatus, sweepRecord, pollOne, applyJobOutcome,
            hs, hp, hj, hd]
  · refine ⟨?_, ?_, ?_, ?_⟩ <;>
      simp [getVideoStatus, sweepRecord, pollOne, hs, hj]

/-- Witness for C1 at the concrete fixture. -/
theorem reconcile_idempotent_witness :
    (getVideoStatus ((getVideoStatus sampleRecord (Except.ok samplePayload)
        10).video) (Except.ok samplePayload) 20).video
      = (getVideoStatus sampleRecord (Except.ok samplePayload) 10).video :=
  (reconcile_idempotent sampleRecord samplePayload 10 20 rfl rfl).1

/-- C8: for a record in status `processing` with a (truthy) job id, the
on-demand status query issues exactly one engine call, and when that
call fails it performs no write (the persisted record is unchanged) and
answers the caller with the unchanged persisted status. -/
theorem status_query_engine_error (v : VideoRecord) (now : Nat)
    (hs : v.status = Status.processing) (hj : strTruthy v.jobId = true) :
    (getVideoStatus v (Except.error ()) now).video = v
  ∧ (getVideoStatus v (Except.error ()) now).engineCalls = 1
  ∧ (getVideoStatus v (Except.error ()) now).response.status = v.status := by
  unfold getVideoStatus
  rw [if_pos ⟨hs, hj⟩]
  exact ⟨rfl, rfl, rfl⟩

/-- Witness for C8 at the concrete fixture. -/
theorem status_query_engine_error_witness :
    (getVideoStatus sampleRecord (Except.error ()) 10).video = sampleRecord :=
  (status_query_engine_error sampleRecord 10 rfl rfl).1

/-- C9: one poller tick treats every loaded record independently — the
sweep result at each position is exactly the per-record step applied to
that record alone, so a failing engine query for one record cannot
abort or alter the treatment of any other; and a record whose own
engine query fails is simply left unchanged (the failure is caught). -/
theorem poller_per_record_isolation (eng : String → Except Unit JobPayload)
    (now : Nat) (rs : List VideoRecord) :
    checkProcessingJobs eng now rs = rs.map (pollOne eng now)
  ∧ (∀ v : VideoRecord, strTruthy v.jobId = true →
      eng (v.jobId.getD "") = Except.error () →
      pollOne eng now v = v) := by
  constructor
  · induction rs with
    | nil => rfl
    | cons v rest ih => simp [checkProcessingJobs, ih]
  · intro v hj he
    unfold pollOne
    rw [if_pos hj, he]

/-- Witness for C9 at the concrete fixture: a record whose engine query
fails is left unchanged by the sweep step. -/
theorem poller_per_record_isolation_witness :
    pollOne (fun _ => Except.error ()) 10 sampleRecord = sampleRecord :=
  (poller_per_record_isolation (fun _ => Except.error ()) 10 []).2
    sampleRecord rfl rfl

/-- C10: for a record in status `processing` whose `jobId` is unset,
the on-demand status query performs no engine call and no write, and
returns the persisted status `processing` unchanged: the engine query
is gated on the presence of `jobId`, not on status alone. -/
theorem status_query_requires_jobid (v : VideoRecord)
    (e : Except Unit JobPayload) (now : Nat)
    (hs : v.status = Status.processing) (hj : v.jobId = none) :
    (getVideoStatus v e now).video = v
  ∧ (getVideoStatus v e now).engineCalls = 0
  ∧ (getVideoStatus v e now).response.status = Status.processing := by
  have hguard : ¬ (v.status = Status.processing ∧ strTruthy v.jobId = true) := by
    intro h
    rw [hj] at h
    exact absurd h.2 (by simp [strTruthy])
  unfold getVideoStatus
  rw [if_neg hguard]
  exact ⟨rfl, rfl, hs⟩

/-- Witness for C10 at the concrete fixture. -/
theorem status_query_requires_jobid_witness :
    (getVideoStatus noJobRecord (Except.ok samplePayload) 10).engineCalls = 0 :=
  (status_query_requires_jobid noJobRecord (Except.ok samplePayload) 10
    rfl rfl).2.1


/-- C2: every operation — upload dispatch, on-demand status query,
background poller tick, metadata update — keeps `status` inside the
enum and moves it only along the edges
`uploading → processing | error`, `processing → ready | error`
(self-loops allowed), and no operation ever changes the status of a
record whose status is `ready` or `error`. -/
theorem status_transitions_allowed :
    (∀ title descr fname vid cAt now submit,
        allowedEdge Status.uploading
          (uploadVideo title descr fname vid cAt now submit).1.status = true)
  ∧ (∀ (v : VideoRecord) (e : Except Unit JobPayload) (now : Nat),
        allowedEdge v.status ((getVideoStatus v e now).video.status) = true)
  ∧ (∀ (v : VideoRecord) (eng : String → Except Unit JobPayload) (now : Nat),
        allowedEdge v.status ((sweepRecord eng now v).status) = true)
  ∧ (∀ (v : VideoRecord) (t d : Option String) (now : Nat),
        (updateVideo v t d now).status = v.status)
  ∧ (∀ (v : VideoRecord) (e : Except Unit JobPayload)
        (eng : String → Except Unit JobPayload) (t d : Option String)
        (now : Nat),
        (v.status = Status.ready ∨ v.status = Status.error) →
        (getVideoStatus v e now).video.status = v.status
        ∧ (sweepRecord eng now v).status = v.status
        ∧ (updateVideo v t d now).status = v.status) := by
  have hupd : ∀ (v : VideoRecord) (t d : Option String) (now : Nat),
      (updateVideo v t d now).status = v.status := by
    intro v t d now
    unfold updateVideo
    cases t with
    | none => cases d <;> rfl
    | some tt =>
        by_cases ht : tt = "" <;> cases d <;> simp [ht]
  have hquery : ∀ (v : VideoRecord) (e : Except Unit JobPayload) (now : Nat),
      allowedEdge v.status ((getVideoStatus v e now).video.status) = true := by
    intro v e now
    unfold getVideoStatus
    by_cases hg : v.status = Status.processing ∧ strTruthy v.jobId = true
    · rw [if_pos hg]
      cases e with
      | ok p =>
          rcases applyJobOutcome_status v p now with h | h | h <;>
            simp only [h, hg.1] <;> first | exact allowedEdge_refl _ | rfl
      | error u => exact allowedEdge_refl _
    · rw [if_neg hg]
      exact allowedEdge_refl _
  have hsweep : ∀ (v : VideoRecord) (eng : String → Except Unit JobPayload)
      (now : Nat),
      allowedEdge v.status ((sweepRecord eng now v).status) = true := by
    intro v eng now
    unfold sweepRecord
    by_cases hp : v.status = Status.processing
    · rw [if_pos hp]
      rcases pollOne_status eng now v with h | h | h <;>
        simp only [h, hp] <;> first | exact allowedEdge_refl _ | rfl
    · rw [if_neg hp]
      exact allowedEdge_refl _
  refine ⟨?_, hquery, hsweep, hupd, ?_⟩
  · intro title descr fname vid cAt now submit
    cases submit <;> rfl
  · intro v e eng t d now hterm
    have hnp : v.status ≠ Status.processing := by
      rcases hterm with h | h <;> rw [h] <;> intro hc <;> exact absurd hc (by simp)
    refine ⟨?_, ?_, hupd v t d now⟩
    · unfold getVideoStatus
      rw [if_neg (fun hg => hnp hg.1)]
    · unfold sweepRecord
      rw [if_neg hnp]

/-- Witness for C2's terminal-state clause at the concrete fixture. -/
theorem status_transitions_allowed_witness :
    (getVideoStatus readyRecord (Except.ok samplePayload) 9).video.status
      = readyRecord.status :=
  (status_transitions_allowed.2.2.2.2 readyRecord (Except.ok samplePayload)
    (fun _ => Except.ok samplePayload) none none 9 (Or.inl rfl)).1

/-- C3 counterexample: a dispatch whose engine submission fails does
not set `updatedAt` to the dispatch time — with creation clock 5 and
dispatch clock 7, the resulting record still carries `updatedAt = 5`. -/
theorem dispatch_failure_updatedAt_stale :
    (uploadVideo "My Clip" (some "d") "clip.mp4" "vid-1" 5 7
        SubmitResult.err).1.updatedAt = 5
  ∧ (uploadVideo "My Clip" (some "d") "clip.mp4" "vid-1" 5 7
        SubmitResult.err).1.updatedAt ≠ 7 :=
  ⟨rfl, by decide⟩

/-- C3 amended: for every upload whose engine submission fails, the
dispatch operation sets the record's status to `error`, leaves `jobId`
unset, and releases the local uploaded file; `updatedAt` is not
refreshed and keeps its creation-time value. -/
theorem dispatch_failure_behaviour (title : String) (descr : Option String)
    (fname vid : String) (cAt now : Nat) :
    (uploadVideo title descr fname vid cAt now SubmitResult.err).1.status
        = Status.error
  ∧ (uploadVideo title descr fname vid cAt now SubmitResult.err).1.jobId
        = none
  ∧ (uploadVideo title descr fname vid cAt now SubmitResult.err).2 = false
  ∧ (uploadVideo title descr fname vid cAt now SubmitResult.err).1.updatedAt
        = cAt :=
  ⟨rfl, rfl, rfl, rfl⟩

/-- C4 counterexample: a dispatch whose engine submission succeeds does
not set `updatedAt` to the dispatch time — with creation clock 5 and
dispatch clock 7, the resulting record still carries `updatedAt = 5`. -/
theorem dispatch_success_updatedAt_stale :
    (uploadVideo "My Clip" none "clip.mp4" "vid-2" 5 7
        (SubmitResult.ok "job-42")).1.updatedAt = 5
  ∧ (uploadVideo "My Clip" none "clip.mp4" "vid-2" 5 7
        (SubmitResult.ok "job-42")).1.updatedAt ≠ 7 :=
  ⟨rfl, by decide⟩

/-- C4 amended: for every upload whose engine submission succeeds with
job id `j`, the dispatch operation persists `jobId = j`, sets status to
`processing`, and removes the local temporary file from disk;
`updatedAt` is not refreshed and keeps its creation-time value. -/
theorem dispatch_success_behaviour (title : String) (descr : Option String)
    (fname vid j : String) (cAt now : Nat) :
    (uploadVideo title descr fname vid cAt now (SubmitResult.ok j)).1.status
        = Status.processing
  ∧ (uploadVideo title descr fname vid cAt now (SubmitResult.ok j)).1.jobId
        = some j
  ∧ (uploadVideo title descr fname vid cAt now (SubmitResult.ok j)).2 = false
  ∧ (uploadVideo title descr fname vid cAt now (SubmitResult.ok j)).1.updatedAt
        = cAt :=
  ⟨rfl, rfl, rfl, rfl⟩

/-- C5 counterexample: the reconciliation write is not conditional on
the persisted status still being `processing`.  Starting from the
concrete `processing` record, one path applies the completed payload at
clock 10 and persists a `ready` record; the other path, still holding
the stale `processing` snapshot, applies the identical payload at clock
20 and its save takes effect on the already-terminal record, producing
a different persisted state (the `updatedAt` field is rewritten). -/
theorem stale_write_overwrites_terminal :
    (staleReconcileWrite sampleRecord sampleRecord
        (Except.ok samplePayload) 10).status = Status.ready
  ∧ staleReconcileWrite
        (staleReconcileWrite sampleRecord sampleRecord
          (Except.ok samplePayload) 10)
        sampleRecord (Except.ok samplePayload) 20
      ≠ staleReconcileWrite sampleRecord sampleRecord
          (Except.ok samplePayload) 10 :=
  ⟨rfl, by decide⟩

/-- C5 amended: reconciliation writes are unconditional document saves
gated only by the status observed in the writer's own earlier snapshot:
when the snapshot shows `processing` with a truthy `jobId` and the
payload is completed-with-data, the save takes effect regardless of the
currently persisted state; two stale applications of the identical
completed payload agree on every field except possibly `updatedAt`; and
a snapshot not in `processing` produces no write at all. -/
theorem stale_write_semantics (db snap : VideoRecord) (p : JobPayload)
    (t1 t2 : Nat)
    (hs : snap.status = Status.processing) (hj : strTruthy snap.jobId = true)
    (hp : p.status = "completed") (hd : p.data.isSome = true) :
    staleReconcileWrite db snap (Except.ok p) t1 = applyJobOutcome snap p t1
  ∧ { staleReconcileWrite db snap (Except.ok p) t2 with
        updatedAt := (staleReconcileWrite db snap (Except.ok p) t1).updatedAt }
      = staleReconcileWrite db snap (Except.ok p) t1
  ∧ (∀ (db2 snap2 : VideoRecord) (e : Except Unit JobPayload) (t : Nat),
        snap2.status ≠ Status.processing →
        staleReconcileWrite db2 snap2 e t = db2) := by
  have hwrite : ∀ t, staleReconcileWrite db snap (Except.ok p) t
      = applyJobOutcome snap p t := by
    intro t
    unfold staleReconcileWrite
    rw [if_pos ⟨hs, hj⟩]
    simp only []
    rw [if_pos (Or.inl ⟨hp, hd⟩)]
  refine ⟨hwrite t1, ?_, ?_⟩
  · rw [hwrite t1, hwrite t2]
    cases hdd : p.data with
    | none => rw [hdd] at hd; exact absurd hd (by simp)
    | some d => simp [applyJobOutcome, hp, hdd]
  · intro db2 snap2 e t hnp
    unfold staleReconcileWrite
    rw [if_neg (fun hg => hnp hg.1)]

/-- Witness for C5's amended claim: the stale write takes effect even
though the persisted record is already `ready`. -/
theorem stale_write_semantics_witness :
    staleReconcileWrite readyRecord sampleRecord (Except.ok samplePayload) 10
      = applyJobOutcome sampleRecord samplePayload 10 :=
  (stale_write_semantics readyRecord sampleRecord samplePayload 10 20
    rfl rfl rfl rfl).1


/-- A storage configuration with no provider configured. -/
def noProviderCfg : StorageConfig :=
  { awsAccessKeyId := none, s3Bucket := none, cloudinaryCloudName := none }

/-- A successful per-provider delete outcome. -/
def okOutcome : DeleteOutcome := { success := true, detail := "ok" }

/-- A failed per-provider delete outcome. -/
def failOutcome : DeleteOutcome := { success := false, detail := "boom" }

/-- C6: `deleteFile` attempts the delete against every currently
configured provider (each configured provider's outcome appears in the
returned `results`, and `results` holds exactly one entry per
configured provider, so no individual outcome is discarded); its
aggregate `success` flag is true iff at least one configured provider's
delete succeeds; and with zero providers configured it reports the
configuration failure as `success = false` with an empty outcome
list — the only input producing an empty `results`. -/
theorem deleteFile_aggregate (cfg : StorageConfig) (s3r clr : DeleteOutcome) :
    ((deleteFile cfg s3r clr).success = true ↔
        ((s3Configured cfg = true ∧ s3r.success = true)
          ∨ (cloudinaryConfigured cfg = true ∧ clr.success = true)))
  ∧ (s3Configured cfg = true → s3r ∈ (deleteFile cfg s3r clr).results)
  ∧ (cloudinaryConfigured cfg = true → clr ∈ (deleteFile cfg s3r clr).results)
  ∧ ((deleteFile cfg s3r clr).results.length
      = (if s3Configured cfg = true then 1 else 0)
        + (if cloudinaryConfigured cfg = true then 1 else 0))
  ∧ (s3Configured cfg = false → cloudinaryConfigured cfg = false →
      deleteFile cfg s3r clr = { success := false, results := [] }) := by
  by_cases h1 : s3Configured cfg = true <;>
    by_cases h2 : cloudinaryConfigured cfg = true <;>
      refine ⟨?_, ?_, ?_, ?_, ?_⟩ <;>
        simp [deleteFile, h1, h2]

/-- Witness for C6: with zero providers configured, `deleteFile`
reports failure with an empty outcome list. -/
theorem deleteFile_aggregate_witness :
    deleteFile noProviderCfg okOutcome failOutcome
      = { success := false, results := [] } :=
  (deleteFile_aggregate noProviderCfg okOutcome failOutcome).2.2.2.2 rfl rfl

/-- C7 counterexample: `getContentType ".MP4"` is not `video/mp4` — the
bare dot-name `.MP4` has no extension under Node's `path.extname`
(a leading dot marks a dot-file), so the lookup falls through to
`application/octet-stream`. -/
theorem getContentType_dotfile_counterexample :
    getContentType ".MP4" = "application/octet-stream"
  ∧ getContentType ".MP4" ≠ "video/mp4" :=
  ⟨rfl, by decide⟩

/-- C7 amended: `getContentType` resolves extensions case-insensitively
for paths with a proper basename and covers mp4, avi, mov, wmv, flv,
webm, mkv, jpg, jpeg, png, gif — in particular
`getContentType "v.MP4" = "video/mp4"` — and any input whose extension
is not in the table (such as `v.xyz`) returns
`application/octet-stream`; however the bare dot-name `".MP4"` itself
has no extension (Node treats it as a dot-file), so it also returns
`application/octet-stream`, as do `".xyz"` and extensionless names. -/
theorem getContentType_table :
    getContentType "v.MP4" = "video/mp4"
  ∧ getContentType "v.mp4" = "video/mp4"
  ∧ getContentType "v.AVI" = "video/x-msvideo"
  ∧ getContentType "v.avi" = "video/x-msvideo"
  ∧ getContentType "v.mov" = "video/quicktime"
  ∧ getContentType "v.wmv" = "video/x-ms-wmv"
  ∧ getContentType "v.flv" = "video/x-flv"
  ∧ getContentType "v.WebM" = "video/webm"
  ∧ getContentType "v.webm" = "video/webm"
  ∧ getContentType "v.mkv" = "video/x-matroska"
  ∧ getContentType "v.jpg" = "image/jpeg"
  ∧ getContentType "v.jpeg" = "image/jpeg"
  ∧ getContentType "v.PNG" = "image/png"
  ∧ getContentType "v.png" = "image/png"
  ∧ getContentType "v.gif" = "image/gif"
  ∧ getContentType "v.xyz" = "application/octet-stream"
  ∧ getContentType ".xyz" = "application/octet-stream"
  ∧ getContentType ".MP4" = "application/octet-stream"
  ∧ getContentType "noext" = "application/octet-stream" :=
  ⟨rfl, rfl, rfl, rfl, rfl, rfl, rfl, rfl, rfl, rfl, rfl, rfl, rfl, rfl,
    rfl, rfl, rfl, rfl, rfl⟩

end VidioX

